import Mathlib

/-!
Verification of flexsupport (RepairDesk): ticket model, handlers and template loading.

A shallow embedding of

* `internal/models/ticket.go`  (the `Ticket` record and its derived properties),
* `internal/handlers/handlers.go` (`render`, `renderPartial` and the `{id}` handlers),
* `cmd/repairdesk/main.go` (`loadTemplates`),

followed by the theorems about them.

Conventions of the embedding

* A Go `string` is a Lean `String`; the code only compares strings for equality and
  cuts them at the ASCII characters `/` and `.`, so bytes and characters agree.
* A `time.Time` is the instant it denotes, an `Int` count of nanoseconds;
  `x.After(y)` is `y < x`.
* `float64` arithmetic is kept abstract (class `Float64Arith`): the code performs a single
  floating-point addition and nothing below depends on how it rounds.
* `time.Now()` is a read of the ambient wall clock. The Go methods that call it take no
  time argument; in the embedding the value that the call returns is the parameter `now`.
-/

namespace Flexsupport

/-! ## `internal/models/ticket.go` -/

/-- Instants of `time.Time`, in nanoseconds. -/
abbrev Time := Int

/-- The operations on `float64` that the program and its specification use: addition,
multiplication, and the conversion `float64(n)` of an integer. -/
class Float64Arith (F : Type) where
  add : F → F → F
  mul : F → F → F
  ofInt : Int → F

/-- Exact rational arithmetic. It agrees with binary64 arithmetic whenever the operands and
the result are exactly representable, as are the small integers used in the examples. -/
instance : Float64Arith ℚ where
  add := fun a b => a + b
  mul := fun a b => a * b
  ofInt := fun n => (n : ℚ)

/-- Go struct `Part`. -/
structure Part (F : Type) [Float64Arith F] where
  ID : Int := 0
  TicketID : Int := 0
  Name : String := ""
  Quantity : Int := 0
  Cost : F := Float64Arith.ofInt 0
  AddedAt : Time := 0
  AddedBy : String := ""

/-- Go struct `WorkNote`. -/
structure WorkNote where
  ID : Int := 0
  TicketID : Int := 0
  Content : String := ""
  Author : String := ""
  Timestamp : Time := 0

/-- Go struct `Ticket`. `DueDate` is a `*time.Time`: `none` is the nil pointer. The field
  defaults are the Go zero values. -/
structure Ticket (F : Type) [Float64Arith F] where
  ID : Int := 0
  Status : String := ""
  Priority : String := ""
  CustomerName : String := ""
  CustomerPhone : String := ""
  CustomerEmail : String := ""
  DeviceType : String := ""
  DeviceBrand : String := ""
  DeviceModel : String := ""
  SerialNumber : String := ""
  IssueDescription : String := ""
  InternalNotes : String := ""
  EstimatedCost : F := Float64Arith.ofInt 0
  AssignedTo : String := ""
  DueDate : Option Time := none
  CreatedAt : Time := 0
  UpdatedAt : Time := 0
  CreatedBy : String := ""
  Parts : List (Part F) := []
  Notes : List WorkNote := []
  TotalPartsCost : F := Float64Arith.ofInt 0

section Models

variable {F : Type} [Float64Arith F]

/-- Method `(*Ticket).StatusClass`: the Tailwind CSS class of the status badge. -/
def StatusClass (t : Ticket F) : String :=
  if t.Status = "new" then "bg-blue-100 text-blue-800"
  else if t.Status = "in_progress" then "bg-yellow-100 text-yellow-800"
  else if t.Status = "waiting_parts" then "bg-orange-100 text-orange-800"
  else if t.Status = "ready" then "bg-green-100 text-green-800"
  else if t.Status = "completed" then "bg-gray-100 text-gray-800"
  else "bg-gray-100 text-gray-800"

/-- Method `(*Ticket).StatusDisplay`: the human-readable status. -/
def StatusDisplay (t : Ticket F) : String :=
  if t.Status = "new" then "New"
  else if t.Status = "in_progress" then "In Progress"
  else if t.Status = "waiting_parts" then "Waiting for Parts"
  else if t.Status = "ready" then "Ready for Pickup"
  else if t.Status = "completed" then "Completed"
  else t.Status

/-- Method `(*Ticket).TotalCost`: `t.EstimatedCost + t.TotalPartsCost`. -/
def TotalCost (t : Ticket F) : F :=
  Float64Arith.add t.EstimatedCost t.TotalPartsCost

/-- Method `(*Ticket).IsOverdue`. The Go method has the receiver as its only argument;
`now` is the value that the call `time.Now()` in its body returns. -/
def IsOverdue (now : Time) (t : Ticket F) : Bool :=
  match t.DueDate with
  | none => false
  | some due => decide (due < now) && decide (t.Status ≠ "completed")

/-- The five status codes listed in the comment on `Ticket.Status`. -/
def knownStatuses : List String :=
  ["new", "in_progress", "waiting_parts", "ready", "completed"]

/-- The specification's sum `Σ part.Quantity * part.Cost` over a list of parts, accumulated
from zero in list order (written from the specification; the program has no such loop). -/
def specPartsCost (parts : List (Part F)) : F :=
  parts.foldl (fun acc p => Float64Arith.add acc (Float64Arith.mul (Float64Arith.ofInt p.Quantity) p.Cost))
    (Float64Arith.ofInt 0)

/-- The specification's total: `EstimatedCost + Σ part.Quantity * part.Cost` (written from
the specification, to be compared with `TotalCost`). -/
def specTotalCost (t : Ticket F) : F :=
  Float64Arith.add t.EstimatedCost (specPartsCost t.Parts)

end Models

/-! ## `net/http`, `html/template`, `strconv`, `chi`: the library behaviour the handlers rely on

These are models of library code, not of code of the repository.

* A `ResponseWriter` records the header map, whether the status line has been written, the
  status, the header as it was sent, and the body. `Write` sends status 200 first when no
  status has been written; `WriteHeader` after the status has been written is ignored.
  Writes are taken to succeed.
* `http.Error` deletes `Content-Length`, sets `Content-Type` and `X-Content-Type-Options`,
  calls `WriteHeader(code)` and prints the message and a newline.
* `(*template.Template).ExecuteTemplate` writes to its writer while it executes: when it
  returns an error, what it wrote before the error stays written. A template set is
  therefore a function from the template name and the data to the sequence of writes it
  performs and the error it returns, if any.
-/

/-- Type `http.Header`, single-valued. -/
abbrev Header := List (String × String)

/-- Method `Header.Set`. -/
def Header.Set (h : Header) (key value : String) : Header :=
  (key, value) :: h.filter (fun e => e.1 ≠ key)

/-- Method `Header.Del`. -/
def Header.Del (h : Header) (key : String) : Header :=
  h.filter (fun e => e.1 ≠ key)

/-- State of an `http.ResponseWriter`. -/
structure ResponseWriter where
  header : Header := []
  wroteHeader : Bool := false
  status : Nat := 0
  sentHeader : Header := []
  body : String := ""
deriving DecidableEq, Repr

/-- Method `ResponseWriter.WriteHeader`. -/
def ResponseWriter.WriteHeader (w : ResponseWriter) (code : Nat) : ResponseWriter :=
  if w.wroteHeader then w
  else { w with wroteHeader := true, status := code, sentHeader := w.header }

/-- Method `ResponseWriter.Write`. -/
def ResponseWriter.Write (w : ResponseWriter) (data : String) : ResponseWriter :=
  let w1 := if w.wroteHeader then w else w.WriteHeader 200
  { w1 with body := w1.body ++ data }

/-- The process state a handler acts on: the response writer of the request, the lines
printed with `log.Printf`, and (ghost) the names passed to `ExecuteTemplate` so far. -/
structure World where
  w : ResponseWriter := {}
  log : List String := []
  executed : List String := []
deriving DecidableEq, Repr

/-- Function `log.Printf`, the line already formatted. -/
def World.Printf (s : World) (line : String) : World :=
  { s with log := s.log ++ [line] }

/-- Function `http.Error`. -/
def Error (s : World) (error : String) (code : Nat) : World :=
  let h := ((s.w.header.Del "Content-Length").Set "Content-Type" "text/plain; charset=utf-8").Set
    "X-Content-Type-Options" "nosniff"
  { s with w := (({ s.w with header := h } : ResponseWriter).WriteHeader code).Write (error ++ "\n") }

/-- Constants `http.StatusOK`, `http.StatusSeeOther`, `http.StatusBadRequest`,
`http.StatusInternalServerError`. -/
def StatusOK : Nat := 200

/-- See `StatusOK`. -/
def StatusSeeOther : Nat := 303

/-- See `StatusOK`. -/
def StatusBadRequest : Nat := 400

/-- See `StatusOK`. -/
def StatusInternalServerError : Nat := 500

/-- What one call of `ExecuteTemplate` does: the writes it performs, in order, and the
error it returns (`none` for `nil`). -/
structure ExecResult where
  writes : List String := []
  err : Option String := none

/-- A parsed template set (`*template.Template`) over data of type `D`. -/
structure Template (D : Type) where
  ExecuteTemplate : String → D → ExecResult

/-- The call `tmpl.ExecuteTemplate(w, name, data)`: the writes reach `w`, the error is returned. -/
def Template.run {D : Type} (tmpl : Template D) (s : World) (name : String) (data : D) :
    World × Option String :=
  let r := tmpl.ExecuteTemplate name data
  ({ s with w := r.writes.foldl ResponseWriter.Write s.w, executed := s.executed ++ [name] }, r.err)

/-- Function `strconv.Atoi` on a 64-bit platform: an optional sign and one or more decimal
digits, in the range of `int`; `none` is a non-nil error. -/
def Atoi (s : String) : Option Int :=
  let cs := s.data
  let ds := match cs with
    | '-' :: r => r
    | '+' :: r => r
    | _ => cs
  if ds.isEmpty || !ds.all Char.isDigit then none
  else
    let n : Int := ds.foldl (fun n c => n * 10 + ((c.toNat : Int) - 48)) 0
    let v : Int := if cs.head? = some '-' then -n else n
    if v < -(2 : Int) ^ 63 || (2 : Int) ^ 63 - 1 < v then none else some v

/-- An `*http.Request` as the handlers see it: the method, the route parameters that chi
matched, the error of `r.ParseForm()` (`none` for `nil`), the parsed form values, and the
text that `%+v` prints for `r.PostForm`. -/
structure Request where
  Method : String := "GET"
  urlParams : List (String × String) := []
  parseFormErr : Option String := none
  Form : List (String × String) := []
  postFormText : String := "map[]"

/-- Function `chi.URLParam`: the value of the route parameter, `""` when there is none. -/
def URLParam (r : Request) (key : String) : String :=
  (r.urlParams.lookup key).getD ""

/-- Method `(*http.Request).FormValue`: the first value of the key, `""` when there is none. -/
def Request.FormValue (r : Request) (key : String) : String :=
  (r.Form.lookup key).getD ""

/-- Library functions that `http.Redirect` applies to the target: resolution of the target
against the request path (with `path.Clean`), `hexEscapeNonASCII`, `htmlEscape` and
`http.StatusText`. They are parameters of the embedding. -/
structure RedirectLib where
  resolve : Request → String → String
  hexEscapeNonASCII : String → String
  htmlEscape : String → String
  StatusText : Nat → String

/-- Function `http.Redirect`. -/
def Redirect (lib : RedirectLib) (s : World) (r : Request) (url : String) (code : Nat) : World :=
  let url1 := lib.resolve r url
  let hadCT := (s.w.header.lookup "Content-Type").isSome
  let h1 := s.w.header.Set "Location" (lib.hexEscapeNonASCII url1)
  let h2 := if !hadCT && (r.Method == "GET" || r.Method == "HEAD") then
      h1.Set "Content-Type" "text/html; charset=utf-8" else h1
  let w1 := ({ s.w with header := h2 } : ResponseWriter).WriteHeader code
  if !hadCT && r.Method == "GET" then
    { s with w := w1.Write ("<a href=\"" ++ lib.htmlEscape url1 ++ "\">" ++ lib.StatusText code ++ "</a>.\n" ++ "\n") }
  else { s with w := w1 }

/-! ## `internal/handlers/handlers.go` -/

/-- Go struct `Handler`. The map `templates` is an association list: its order is the order
in which one `range` over the map visits the entries, which Go leaves unspecified; a nil
map and an empty map are both `[]`. -/
structure Handler (D : Type) where
  templates : List (String × Template D) := []

section Handlers

variable {D : Type}

/-- Method `(*Handler).render`. -/
def Handler.render (h : Handler D) (s : World) (templateName : String) (data : D) : World :=
  match h.templates.lookup templateName with
  | none =>
    Error (s.Printf ("Template " ++ templateName ++ " not found")) "Internal server error"
      StatusInternalServerError
  | some tmpl =>
    match tmpl.run s templateName data with
    | (s1, none) => s1
    | (s1, some err) =>
      Error (s1.Printf ("Error rendering template " ++ templateName ++ ": " ++ err))
        "Internal server error" StatusInternalServerError

/-- The loop of `renderPartial`: `true` when some template set executed without error
(the `return` inside the loop). -/
def renderPartialLoop (s : World) (templateName : String) (data : D) :
    List (String × Template D) → World × Bool
  | [] => (s, false)
  | (_, tmpl) :: rest =>
    match tmpl.run s templateName data with
    | (s1, none) => (s1, true)
    | (s1, some _) => renderPartialLoop s1 templateName data rest

/-- Method `(*Handler).renderPartial`. -/
def Handler.renderPartial (h : Handler D) (s : World) (templateName : String) (data : D) : World :=
  match renderPartialLoop s templateName data h.templates with
  | (s1, true) => s1
  | (s1, false) =>
    Error (s1.Printf ("Error rendering partial " ++ templateName ++ ": template not found"))
      "Internal server error" StatusInternalServerError

/-- Method `(*Handler).ViewTicket`. `ticketData id` is the data map built around
`getMockTicket(id)`. -/
def Handler.ViewTicket (h : Handler D) (ticketData : Int → D) (s : World) (r : Request) : World :=
  let idStr := URLParam r "id"
  match Atoi idStr with
  | none => Error s "Invalid ticket ID" StatusBadRequest
  | some id => h.render s "technician-view" (ticketData id)

/-- Method `(*Handler).EditTicketForm`. -/
def Handler.EditTicketForm (h : Handler D) (ticketData : Int → D) (s : World) (r : Request) : World :=
  let idStr := URLParam r "id"
  match Atoi idStr with
  | none => Error s "Invalid ticket ID" StatusBadRequest
  | some id => h.render s "ticket-form" (ticketData id)

/-- Method `(*Handler).UpdateTicket`. -/
def Handler.UpdateTicket (_h : Handler D) (lib : RedirectLib) (s : World) (r : Request) : World :=
  let idStr := URLParam r "id"
  match r.parseFormErr with
  | some _ => Error s "Invalid form data" StatusBadRequest
  | none =>
    let s1 := s.Printf ("Updating ticket " ++ idStr ++ ": " ++ r.postFormText)
    Redirect lib s1 r ("/tickets/" ++ idStr) StatusSeeOther

/-- Method `(*Handler).UpdateTicketStatus`. -/
def Handler.UpdateTicketStatus (_h : Handler D) (s : World) (r : Request) : World :=
  let idStr := URLParam r "id"
  let status := r.FormValue "status"
  let s1 := s.Printf ("Updating ticket " ++ idStr ++ " status to: " ++ status)
  let w1 : ResponseWriter := { s1.w with header := s1.w.header.Set "Content-Type" "text/html" }
  { s1 with w := w1.Write ("<span id=\"status-badge\" class=\"px-3 py-1 inline-flex text-sm leading-5 font-semibold rounded-full bg-yellow-100 text-yellow-800\">" ++ status ++ "</span>") }

/-- Method `(*Handler).AddPart`. -/
def Handler.AddPart (_h : Handler D) (s : World) (r : Request) : World :=
  let idStr := URLParam r "id"
  match r.parseFormErr with
  | some _ => Error s "Invalid form data" StatusBadRequest
  | none =>
    let s1 := s.Printf ("Adding part to ticket " ++ idStr ++ ": " ++ r.postFormText)
    let w1 : ResponseWriter := { s1.w with header := s1.w.header.Set "Content-Type" "text/html" }
    { s1 with w := w1.Write ("<div class=\"flex items-center justify-between p-3 bg-gray-50 rounded-md\">\n\t\t<div class=\"flex-1\">\n\t\t\t<span class=\"text-sm font-medium text-gray-900\">" ++ r.FormValue "part_name" ++ "</span>\n\t\t\t<span class=\"text-sm text-gray-500 ml-2\">× " ++ r.FormValue "quantity" ++ "</span>\n\t\t</div>\n\t\t<div class=\"flex items-center gap-3\">\n\t\t\t<span class=\"text-sm font-medium text-gray-900\">$" ++ r.FormValue "cost" ++ "</span>\n\t\t</div>\n\t</div>") }

/-- Method `(*Handler).DeletePart`. -/
def Handler.DeletePart (_h : Handler D) (s : World) (r : Request) : World :=
  let ticketID := URLParam r "id"
  let partID := URLParam r "partId"
  let s1 := s.Printf ("Deleting part " ++ partID ++ " from ticket " ++ ticketID)
  { s1 with w := s1.w.WriteHeader StatusOK }

/-- Method `(*Handler).AddNote`. `nowText` is what `time.Now().Format("Jan 2, 2006 3:04 PM")`
returns. -/
def Handler.AddNote (_h : Handler D) (nowText : String) (s : World) (r : Request) : World :=
  let idStr := URLParam r "id"
  let note := r.FormValue "note"
  let s1 := s.Printf ("Adding note to ticket " ++ idStr ++ ": " ++ note)
  let w1 : ResponseWriter := { s1.w with header := s1.w.header.Set "Content-Type" "text/html" }
  { s1 with w := w1.Write ("<div class=\"p-3 bg-gray-50 rounded-md\">\n\t\t<div class=\"flex justify-between items-start mb-1\">\n\t\t\t<span class=\"text-sm font-medium text-gray-900\">Current User</span>\n\t\t\t<span class=\"text-xs text-gray-500\">" ++ nowText ++ "</span>\n\t\t</div>\n\t\t<p class=\"text-sm text-gray-700 whitespace-pre-line\">" ++ note ++ "</p>\n\t</div>") }

/-- Method `(*Handler).TechnicianTicketView`. -/
def Handler.TechnicianTicketView (h : Handler D) (ticketData : Int → D) (s : World) (r : Request) :
    World :=
  let idStr := URLParam r "id"
  match Atoi idStr with
  | none => Error s "Invalid ticket ID" StatusBadRequest
  | some id => h.render s "technician-view" (ticketData id)

end Handlers

/-! ## `cmd/repairdesk/main.go`

`path/filepath` on a Unix system (separator `/`, no volume names). -/

/-- Function `filepath.Join` on the constant path elements of `loadTemplates`, which are
non-empty and already clean: the elements joined with the separator. -/
def Join (elem : List String) : String :=
  "/".intercalate elem

/-- The scan of `filepath.Ext`, from the last character backwards: `rev` is what remains to
the left (reversed), `acc` the characters already passed. -/
def extScan : List Char → List Char → List Char
  | [], _ => []
  | c :: rev, acc =>
    if c = '/' then [] else if c = '.' then c :: acc else extScan rev (c :: acc)

/-- Function `filepath.Ext`: the suffix beginning at the final dot of the final element of
the path, empty when there is no dot. -/
def Ext (path : String) : String :=
  ⟨extScan path.data.reverse []⟩

/-- Function `filepath.Base`: the last element of the path, trailing separators removed;
`"."` for the empty path and `"/"` for a path of separators only. -/
def Base (path : String) : String :=
  if path = "" then "."
  else
    let stripped := path.data.reverse.dropWhile (fun c => c = '/')
    let last := (stripped.takeWhile (fun c => c ≠ '/')).reverse
    if last = [] then "/" else ⟨last⟩

/-- The template name of a page file:
`baseName := filepath.Base(pageFile); baseName[:len(baseName)-len(filepath.Ext(baseName))]`. -/
def templateName (pageFile : String) : String :=
  let baseName := Base pageFile
  ⟨baseName.data.take (baseName.data.length - (Ext baseName).data.length)⟩

/-- The assignment `m[key] = value` on a map kept as an association list. -/
def mapSet {T : Type} (m : List (String × T)) (key : String) (value : T) : List (String × T) :=
  match m with
  | [] => [(key, value)]
  | (k, v) :: rest => if k = key then (key, value) :: rest else (k, v) :: mapSet rest key value

/-- The list of files parsed for one page: the layout files, the page file, the partial
files (the three `append` calls). -/
def pageFileList (layoutFiles : List String) (pageFile : String) (partialFiles : List String) :
    List String :=
  (([] ++ layoutFiles) ++ [pageFile]) ++ partialFiles

/-- The loop of `loadTemplates` over the page files. -/
def loadPages {T : Type} (ParseFiles : List String → Except String T)
    (layoutFiles partialFiles : List String) :
    List String → List (String × T) → Except String (List (String × T))
  | [], templates => .ok templates
  | pageFile :: rest, templates =>
    match ParseFiles (pageFileList layoutFiles pageFile partialFiles) with
    | .error err => .error ("parsing " ++ pageFile ++ ": " ++ err)
    | .ok tmpl =>
      loadPages ParseFiles layoutFiles partialFiles rest (mapSet templates (templateName pageFile) tmpl)

/-- Function `loadTemplates`. The file system is read through `filepath.Glob` and
`template.ParseFiles`, which are parameters. -/
def loadTemplates {T : Type} (Glob : String → Except String (List String))
    (ParseFiles : List String → Except String T) : Except String (List (String × T)) :=
  match Glob (Join ["templates", "layouts", "*.tmpl"]) with
  | .error err => .error ("globbing layouts: " ++ err)
  | .ok layoutFiles =>
    if layoutFiles.length = 0 then .error "no layout templates found in templates/layouts/"
    else
      match Glob (Join ["templates", "pages", "*.tmpl"]) with
      | .error err => .error ("globbing pages: " ++ err)
      | .ok pageFiles =>
        let partialFiles := match Glob (Join ["templates", "partials", "*.tmpl"]) with
          | .ok files => files
          | .error _ => []
        loadPages ParseFiles layoutFiles partialFiles pageFiles []

/-- What `filepath.Glob(dir/*.tmpl)` returns: distinct paths, each the directory, a
separator, and a file name without separator that ends in `.tmpl`. -/
def GlobResult (dir : String) (files : List String) : Prop :=
  files.Nodup ∧
    ∀ f ∈ files, ∃ stem : List Char, '/' ∉ stem ∧ f = ⟨dir.data ++ '/' :: (stem ++ ".tmpl".data)⟩

/-! ## Concrete inputs used in the examples below -/

/-- A ticket due at instant `100` that is not completed. -/
def dueTicket : Ticket ℚ := { ID := 1, Status := "new", DueDate := some 100 }

/-- A ticket whose stored parts total (`0`) differs from the total of its parts (`1 × 10`). -/
def driftTicket : Ticket ℚ :=
  { ID := 2, Status := "new", EstimatedCost := 5, TotalPartsCost := 0, Parts := [{ ID := 1, TicketID := 2, Name := "screen", Quantity := 1, Cost := 10 }] }

/-- A ticket without parts whose stored parts total is `7`. -/
def noPartsTicket : Ticket ℚ :=
  { ID := 3, Status := "new", EstimatedCost := 5, TotalPartsCost := 7, Parts := [] }

/-- A ticket whose stored parts total agrees with its parts. -/
def consistentTicket : Ticket ℚ :=
  { ID := 4, Status := "ready", EstimatedCost := 5, TotalPartsCost := 20, Parts := [{ ID := 1, TicketID := 4, Name := "screen", Quantity := 2, Cost := 10 }] }

/-- A template set whose execution of any name writes `<html>` and then fails, as a
template does that prints text and then evaluates a field its data lacks. -/
def leakyUnit : Template Unit :=
  { ExecuteTemplate := fun _ _ => { writes := ["<html>"], err := some "can't evaluate field" } }

/-- A template set whose execution of any name writes a list fragment and succeeds. -/
def listUnit : Template Unit :=
  { ExecuteTemplate := fun _ _ => { writes := ["<ul></ul>"], err := none } }

/-- A handler whose only page, `dashboard`, is the failing template set. -/
def leakyHandler : Handler Unit := { templates := [("dashboard", leakyUnit)] }

/-- A handler with the failing page `dashboard` and the working page `tickets`, visited in
this order by `range`. -/
def mixedHandler : Handler Unit :=
  { templates := [("dashboard", leakyUnit), ("tickets", listUnit)] }

/-- A `POST` request routed with `id = abc`, carrying a parsable form. -/
def abcRequest : Request :=
  { Method := "POST", urlParams := [("id", "abc"), ("partId", "7")], parseFormErr := none, Form := [("status", "ready"), ("note", "hi"), ("part_name", "screen"), ("quantity", "1"), ("cost", "10")], postFormText := "map[status:[ready]]" }

/-- A file system with one layout, two pages and one partial, as `filepath.Glob` lists it. -/
def demoGlob (pattern : String) : Except String (List String) :=
  if pattern = "templates/layouts/*.tmpl" then .ok ["templates/layouts/base.tmpl"]
  else if pattern = "templates/pages/*.tmpl" then
    .ok ["templates/pages/dashboard.tmpl", "templates/pages/ticket-form.tmpl"]
  else if pattern = "templates/partials/*.tmpl" then .ok ["templates/partials/status-badge.tmpl"]
  else .ok []

/-- A parser that succeeds and keeps the list of files it was given. -/
def demoParse (files : List String) : Except String (List String) := .ok files

/-! ## Theorems: the ticket model -/

section ModelTheorems

variable {F : Type} [Float64Arith F]

theorem mem_knownStatuses (s : String) :
    s ∈ knownStatuses ↔
      s = "new" ∨ s = "in_progress" ∨ s = "waiting_parts" ∨ s = "ready" ∨ s = "completed" := by
  simp [knownStatuses]

/-- C1. With the clock reading as the input `now`: `IsOverdue` is true exactly when the
ticket has a due date `T`, its status is not `completed`, and `T < now`; it is false without
a due date, false for a completed ticket, false at `now = T`, and true at `now = T + 1ns`
for a ticket that is not completed. -/
theorem IsOverdue_iff (now : Time) (t : Ticket F) :
    (IsOverdue now t = true ↔ ∃ T, t.DueDate = some T ∧ t.Status ≠ "completed" ∧ T < now) ∧
    (t.DueDate = none → IsOverdue now t = false) ∧
    (t.Status = "completed" → IsOverdue now t = false) ∧
    (∀ T, t.DueDate = some T → now = T → IsOverdue now t = false) ∧
    (∀ T, t.DueDate = some T → t.Status ≠ "completed" → now = T + 1 → IsOverdue now t = true) := by
  refine ⟨?_, ?_, ?_, ?_, ?_⟩
  · cases hd : t.DueDate with
    | none => simp [IsOverdue, hd]
    | some due =>
      simp only [IsOverdue, hd, Bool.and_eq_true, decide_eq_true_eq, Option.some.injEq]
      constructor
      · rintro ⟨h1, h2⟩
        exact ⟨due, rfl, h2, h1⟩
      · rintro ⟨T, rfl, h2, h1⟩
        exact ⟨h1, h2⟩
  · intro hd
    simp [IsOverdue, hd]
  · intro hs
    cases hd : t.DueDate <;> simp [IsOverdue, hd, hs]
  · intro T hd hnow
    simp [IsOverdue, hd, hnow]
  · intro T hd hs hnow
    simp [IsOverdue, hd, hs, hnow]

/-- C1, at a concrete ticket due at `100`: false at `100`, true at `101`. -/
theorem IsOverdue_iff_witness :
    IsOverdue 100 dueTicket = false ∧ IsOverdue 101 dueTicket = true :=
  ⟨(IsOverdue_iff 100 dueTicket).2.2.2.1 100 rfl rfl,
   (IsOverdue_iff 101 dueTicket).2.2.2.2 100 rfl (by decide) rfl⟩

/-- C2 (as stated, refuted). `TotalCost` of a ticket with one part of quantity `1` and cost
`10`, estimated cost `5` and stored parts total `0` is `5`, not `5 + 1 × 10`; and
`TotalCost` of a ticket with no parts and stored parts total `7` is `12`, not its estimated
cost `5`. -/
theorem TotalCost_drifts :
    TotalCost driftTicket = 5 ∧ specTotalCost driftTicket = 15 ∧
      TotalCost driftTicket ≠ specTotalCost driftTicket ∧
      noPartsTicket.Parts = [] ∧ TotalCost noPartsTicket = 12 ∧ noPartsTicket.EstimatedCost = 5 := by
  simp [TotalCost, specTotalCost, specPartsCost, driftTicket, noPartsTicket, Float64Arith.add,
    Float64Arith.mul, Float64Arith.ofInt]
  norm_num

/-- C2 (amended). `TotalCost` is the estimated cost plus the stored field `TotalPartsCost`;
it does not read `Parts` (replacing the parts leaves it unchanged); and it equals the
estimated cost plus the sum over the parts of quantity × cost whenever the stored field
equals that sum. -/
theorem TotalCost_stored (t : Ticket F) :
    TotalCost t = Float64Arith.add t.EstimatedCost t.TotalPartsCost ∧
    (∀ parts : List (Part F), TotalCost { t with Parts := parts } = TotalCost t) ∧
    (t.TotalPartsCost = specPartsCost t.Parts → TotalCost t = specTotalCost t) := by
  refine ⟨rfl, fun _ => rfl, ?_⟩
  intro h
  simp [TotalCost, specTotalCost, h]

/-- C2 (amended), at a concrete ticket whose stored parts total agrees with its parts. -/
theorem TotalCost_stored_witness :
    consistentTicket.TotalPartsCost = specPartsCost consistentTicket.Parts ∧
      TotalCost consistentTicket = specTotalCost consistentTicket :=
  ⟨by norm_num [consistentTicket, specPartsCost, Float64Arith.add, Float64Arith.mul, Float64Arith.ofInt],
   (TotalCost_stored consistentTicket).2.2
    (by norm_num [consistentTicket, specPartsCost, Float64Arith.add, Float64Arith.mul, Float64Arith.ofInt])⟩

/-- C3. `StatusDisplay` maps the five known codes through the fixed table and returns every
other status string unchanged. -/
theorem StatusDisplay_table (t : Ticket F) :
    (t.Status = "new" → StatusDisplay t = "New") ∧
    (t.Status = "in_progress" → StatusDisplay t = "In Progress") ∧
    (t.Status = "waiting_parts" → StatusDisplay t = "Waiting for Parts") ∧
    (t.Status = "ready" → StatusDisplay t = "Ready for Pickup") ∧
    (t.Status = "completed" → StatusDisplay t = "Completed") ∧
    (t.Status ∉ knownStatuses → StatusDisplay t = t.Status) := by
  refine ⟨?_, ?_, ?_, ?_, ?_, ?_⟩
  · intro h; simp [StatusDisplay, h]
  · intro h; simp [StatusDisplay, h]
  · intro h; simp [StatusDisplay, h]
  · intro h; simp [StatusDisplay, h]
  · intro h; simp [StatusDisplay, h]
  · intro h
    rw [mem_knownStatuses] at h
    simp only [not_or] at h
    obtain ⟨h1, h2, h3, h4, h5⟩ := h
    simp [StatusDisplay, h1, h2, h3, h4, h5]

/-- C3, at the statuses `in_progress`, `bogus_status` and the empty string. -/
theorem StatusDisplay_table_witness :
    StatusDisplay ({ Status := "in_progress" } : Ticket ℚ) = "In Progress" ∧
      StatusDisplay ({ Status := "bogus_status" } : Ticket ℚ) = "bogus_status" ∧
      StatusDisplay ({ Status := "" } : Ticket ℚ) = "" :=
  ⟨(StatusDisplay_table _).2.1 rfl, (StatusDisplay_table _).2.2.2.2.2 (by decide),
   (StatusDisplay_table _).2.2.2.2.2 (by decide)⟩

theorem StatusClass_of_known (t : Ticket F) :
    (t.Status = "new" → StatusClass t = "bg-blue-100 text-blue-800") ∧
    (t.Status = "in_progress" → StatusClass t = "bg-yellow-100 text-yellow-800") ∧
    (t.Status = "waiting_parts" → StatusClass t = "bg-orange-100 text-orange-800") ∧
    (t.Status = "ready" → StatusClass t = "bg-green-100 text-green-800") ∧
    (t.Status = "completed" → StatusClass t = "bg-gray-100 text-gray-800") := by
  refine ⟨?_, ?_, ?_, ?_, ?_⟩ <;> intro h <;> simp [StatusClass, h]

/-- C4. On the five known statuses `StatusClass` returns five fixed tags: `new` gives
`bg-blue-100 text-blue-800`, `in_progress` gives `bg-yellow-100 text-yellow-800`,
`waiting_parts` gives `bg-orange-100 text-orange-800`, `ready` gives
`bg-green-100 text-green-800` and `completed` gives `bg-gray-100 text-gray-800`. It is
injective on the known statuses (each known status has its own tag), and the set of tags it
returns for them has exactly five elements. -/
theorem StatusClass_known_five :
    (∀ t1 t2 : Ticket F, t1.Status ∈ knownStatuses → t2.Status ∈ knownStatuses →
      StatusClass t1 = StatusClass t2 → t1.Status = t2.Status) ∧
    ((knownStatuses.map (fun s => StatusClass ({ Status := s } : Ticket F))).toFinset.card = 5) ∧
    (∀ t : Ticket F,
      (t.Status = "new" → StatusClass t = "bg-blue-100 text-blue-800") ∧
      (t.Status = "in_progress" → StatusClass t = "bg-yellow-100 text-yellow-800") ∧
      (t.Status = "waiting_parts" → StatusClass t = "bg-orange-100 text-orange-800") ∧
      (t.Status = "ready" → StatusClass t = "bg-green-100 text-green-800") ∧
      (t.Status = "completed" → StatusClass t = "bg-gray-100 text-gray-800")) ∧
    (knownStatuses.map (fun s => StatusClass ({ Status := s } : Ticket F)) =
      ["bg-blue-100 text-blue-800", "bg-yellow-100 text-yellow-800",
       "bg-orange-100 text-orange-800", "bg-green-100 text-green-800",
       "bg-gray-100 text-gray-800"]) ∧
    (∀ t : Ticket F, t.Status ∈ knownStatuses →
      StatusClass t ∈ ["bg-blue-100 text-blue-800", "bg-yellow-100 text-yellow-800",
        "bg-orange-100 text-orange-800", "bg-green-100 text-green-800",
        "bg-gray-100 text-gray-800"]) := by
  refine ⟨?_, ?_, StatusClass_of_known, ?_, ?_⟩
  · intro t1 t2 h1 h2 heq
    rw [mem_knownStatuses] at h1 h2
    obtain ⟨a1, a2, a3, a4, a5⟩ := StatusClass_of_known t1
    obtain ⟨b1, b2, b3, b4, b5⟩ := StatusClass_of_known t2
    rcases h1 with h1 | h1 | h1 | h1 | h1 <;> rcases h2 with h2 | h2 | h2 | h2 | h2 <;>
      first
        | (rw [h1, h2]; done)
        | (exfalso
           first
             | (rw [a1 h1] at heq) | (rw [a2 h1] at heq) | (rw [a3 h1] at heq)
             | (rw [a4 h1] at heq) | (rw [a5 h1] at heq)
           first
             | (rw [b1 h2] at heq) | (rw [b2 h2] at heq) | (rw [b3 h2] at heq)
             | (rw [b4 h2] at heq) | (rw [b5 h2] at heq)
           exact absurd heq (by decide))
  · simp [knownStatuses, StatusClass]
  · simp [knownStatuses, StatusClass]
  · intro t ht
    rw [mem_knownStatuses] at ht
    obtain ⟨a1, a2, a3, a4, a5⟩ := StatusClass_of_known t
    rcases ht with h | h | h | h | h
    · rw [a1 h]; decide
    · rw [a2 h]; decide
    · rw [a3 h]; decide
    · rw [a4 h]; decide
    · rw [a5 h]; decide

/-- C4, at the tickets with status `new`, `ready` and `completed`: the tags of `new` and
`completed` differ, and `ready` gives `bg-green-100 text-green-800`. -/
theorem StatusClass_known_five_witness :
    StatusClass ({ Status := "new" } : Ticket ℚ) ≠ StatusClass ({ Status := "completed" } : Ticket ℚ) ∧
      StatusClass ({ Status := "ready" } : Ticket ℚ) = "bg-green-100 text-green-800" ∧
      StatusClass ({ Status := "in_progress" } : Ticket ℚ) = "bg-yellow-100 text-yellow-800" :=
  ⟨fun h => absurd (StatusClass_known_five.1 _ _ (by decide) (by decide) h) (by decide),
   (StatusClass_known_five.2.2.1 _).2.2.2.1 rfl,
   (StatusClass_known_five.2.2.1 _).2.1 rfl⟩

/-- C5. For every status that is not one of the five known codes `StatusClass` returns the tag
`bg-gray-100 text-gray-800` of the `default` branch; the result is the same for any two such
statuses, and it coincides with the status only when the status is that tag itself. -/
theorem StatusClass_unknown (t : Ticket F) (h : t.Status ∉ knownStatuses) :
    StatusClass t = "bg-gray-100 text-gray-800" ∧
    (∀ u : Ticket F, u.Status ∉ knownStatuses → StatusClass u = StatusClass t) ∧
    (StatusClass t = t.Status ↔ t.Status = "bg-gray-100 text-gray-800") := by
  have key : ∀ v : Ticket F, v.Status ∉ knownStatuses →
      StatusClass v = "bg-gray-100 text-gray-800" := by
    intro v hv
    rw [mem_knownStatuses] at hv
    simp only [not_or] at hv
    obtain ⟨h1, h2, h3, h4, h5⟩ := hv
    simp [StatusClass, h1, h2, h3, h4, h5]
  refine ⟨key t h, fun u hu => by rw [key u hu, key t h], ?_⟩
  rw [key t h]
  exact eq_comm

/-- C5, at the statuses `unknown`, the empty string and `New` (a known code in another
letter case). -/
theorem StatusClass_unknown_witness :
    StatusClass ({ Status := "unknown" } : Ticket ℚ) = "bg-gray-100 text-gray-800" ∧
      StatusClass ({ Status := "" } : Ticket ℚ) = "bg-gray-100 text-gray-800" ∧
      StatusClass ({ Status := "New" } : Ticket ℚ) = "bg-gray-100 text-gray-800" :=
  ⟨(StatusClass_unknown _ (by decide)).1, (StatusClass_unknown _ (by decide)).1,
   (StatusClass_unknown _ (by decide)).1⟩

/-- C6 (as stated, refuted). The same ticket, evaluated with no other argument at the clock
readings `100` and `101`, gives `false` and then `true`. -/
theorem IsOverdue_reads_clock :
    IsOverdue 100 dueTicket = false ∧ IsOverdue 101 dueTicket = true ∧
      IsOverdue 100 dueTicket ≠ IsOverdue 101 dueTicket := by
  decide

/-- C6 (amended). `IsOverdue` takes the ticket only and reads the clock: its result is the
same at every pair of clock readings exactly when the ticket has no due date or is
completed. For any other ticket the results at the due instant and one nanosecond later
differ. -/
theorem IsOverdue_clock_independent_iff (t : Ticket F) :
    ((∀ c1 c2 : Time, IsOverdue c1 t = IsOverdue c2 t) ↔
      (t.DueDate = none ∨ t.Status = "completed")) ∧
    (∀ T, t.DueDate = some T → t.Status ≠ "completed" →
      IsOverdue T t = false ∧ IsOverdue (T + 1) t = true) := by
  have second : ∀ T, t.DueDate = some T → t.Status ≠ "completed" →
      IsOverdue T t = false ∧ IsOverdue (T + 1) t = true := by
    intro T hd hs
    simp [IsOverdue, hd, hs]
  refine ⟨⟨?_, ?_⟩, second⟩
  · intro hall
    cases hd : t.DueDate with
    | none => exact Or.inl rfl
    | some T =>
      right
      by_contra hs
      obtain ⟨h1, h2⟩ := second T hd hs
      have := hall T (T + 1)
      rw [h1, h2] at this
      exact Bool.noConfusion this
  · rintro (hd | hs) c1 c2
    · simp [IsOverdue, hd]
    · cases hd : t.DueDate <;> simp [IsOverdue, hd, hs]

/-- C6 (amended), at a ticket due at `100`: false at clock `100`, true at clock `101`. -/
theorem IsOverdue_clock_independent_iff_witness :
    IsOverdue 100 dueTicket = false ∧ IsOverdue (100 + 1) dueTicket = true :=
  (IsOverdue_clock_independent_iff dueTicket).2 100 rfl (by decide)

end ModelTheorems

/-! ## Theorems: the handlers -/

section HandlerTheorems

variable {D : Type}

theorem Error_fresh (s : World) (msg : String) (code : Nat) (hw : s.w.wroteHeader = false) :
    (Error s msg code).w.status = code ∧ (Error s msg code).w.wroteHeader = true ∧
      (Error s msg code).w.body = s.w.body ++ (msg ++ "\n") ∧
      (Error s msg code).log = s.log ∧ (Error s msg code).executed = s.executed := by
  simp [Error, ResponseWriter.WriteHeader, ResponseWriter.Write, hw]

/-- C7 (evaluation at the failing input). For the request with `id = abc`, which
`strconv.Atoi` rejects: `ViewTicket`, `EditTicketForm` and `TechnicianTicketView` answer
400, while `UpdateTicketStatus`, `AddPart`, `DeletePart` and `AddNote` answer 200 and
`UpdateTicket` answers 303; `UpdateTicketStatus`, `DeletePart` and `AddNote` answer 200 for
every request, whatever its `id`. -/
theorem id_not_validated (h : Handler D) (ticketData : Int → D) (lib : RedirectLib)
    (nowText : String) :
    Atoi (URLParam abcRequest "id") = none ∧
    (h.ViewTicket ticketData {} abcRequest).w.status = 400 ∧
    (h.EditTicketForm ticketData {} abcRequest).w.status = 400 ∧
    (h.TechnicianTicketView ticketData {} abcRequest).w.status = 400 ∧
    (h.UpdateTicketStatus {} abcRequest).w.status = 200 ∧
    (h.UpdateTicketStatus {} abcRequest).w.body =
      "<span id=\"status-badge\" class=\"px-3 py-1 inline-flex text-sm leading-5 font-semibold rounded-full bg-yellow-100 text-yellow-800\">ready</span>" ∧
    (h.AddPart {} abcRequest).w.status = 200 ∧
    (h.DeletePart {} abcRequest).w.status = 200 ∧
    (h.AddNote nowText {} abcRequest).w.status = 200 ∧
    (h.UpdateTicket lib {} abcRequest).w.status = 303 ∧
    (h.UpdateTicket lib {} abcRequest).w.body = "" ∧
    (∀ r : Request, (h.UpdateTicketStatus {} r).w.status = 200 ∧
      (h.DeletePart {} r).w.status = 200 ∧ (h.AddNote nowText {} r).w.status = 200) := by
  have hat : Atoi (URLParam abcRequest "id") = none := by decide
  refine ⟨hat, ?_, ?_, ?_, ?_, ?_, ?_, ?_, ?_, ?_, ?_, fun r => ⟨rfl, rfl, rfl⟩⟩
  · simp only [Handler.ViewTicket, hat]; rfl
  · simp only [Handler.EditTicketForm, hat]; rfl
  · simp only [Handler.TechnicianTicketView, hat]; rfl
  · rfl
  · simp [Handler.UpdateTicketStatus, abcRequest, Request.FormValue, ResponseWriter.Write,
      ResponseWriter.WriteHeader, World.Printf]
  · rfl
  · rfl
  · rfl
  · rfl
  · rfl

/-- C8 (evaluation at the failing input). The page `dashboard` writes `<html>` and then
fails: `render` leaves status 200 and the body `<html>` followed by the error text, and so
does `renderPartial`; when a failing set is tried before the set that succeeds,
`renderPartial` answers 200 with the output of both. -/
theorem render_leaks_partial_output :
    (leakyHandler.render {} "dashboard" ()).w.status = 200 ∧
    (leakyHandler.render {} "dashboard" ()).w.body = "<html>Internal server error\n" ∧
    (leakyHandler.render {} "dashboard" ()).log =
      ["Error rendering template dashboard: can't evaluate field"] ∧
    (leakyHandler.renderPartial {} "ticket-list" ()).w.status = 200 ∧
    (leakyHandler.renderPartial {} "ticket-list" ()).w.body = "<html>Internal server error\n" ∧
    (mixedHandler.renderPartial {} "ticket-list" ()).w.status = 200 ∧
    (mixedHandler.renderPartial {} "ticket-list" ()).w.body = "<html><ul></ul>" := by
  decide

/-- C9. When the page name is not a key of the templates map and nothing has been written
yet, `render` executes no template, logs the name, and answers with status 500 and the
body `Internal server error` (newline-terminated by `http.Error`); in particular for the
nil or empty map. -/
theorem render_missing_page (h : Handler D) (s : World) (templateName : String) (data : D)
    (hmiss : ∀ e ∈ h.templates, e.1 ≠ templateName)
    (hw : s.w.wroteHeader = false) (hb : s.w.body = "") :
    (h.render s templateName data).w.status = 500 ∧
    (h.render s templateName data).w.wroteHeader = true ∧
    (h.render s templateName data).w.body = "Internal server error\n" ∧
    (h.render s templateName data).executed = s.executed ∧
    (h.render s templateName data).log = s.log ++ ["Template " ++ templateName ++ " not found"] := by
  have hlook : h.templates.lookup templateName = none := by
    rw [List.lookup_eq_none_iff]
    intro e he
    have hne : templateName ≠ e.1 := Ne.symm (hmiss e he)
    simpa using hne
  have hE := Error_fresh (s.Printf ("Template " ++ templateName ++ " not found"))
    "Internal server error" StatusInternalServerError (by simpa [World.Printf] using hw)
  simp only [Handler.render, hlook]
  obtain ⟨h1, h2, h3, h4, h5⟩ := hE
  refine ⟨h1, h2, ?_, ?_, ?_⟩
  · rw [h3]
    show s.w.body ++ ("Internal server error" ++ "\n") = "Internal server error\n"
    rw [hb]
    decide
  · rw [h5]
    rfl
  · rw [h4]
    rfl

/-- C9, at the nil map and at a map that has the page `dashboard` only. -/
theorem render_missing_page_witness :
    (({ templates := [] } : Handler Unit).render {} "dashboard" ()).w.status = 500 ∧
    (({ templates := [] } : Handler Unit).render {} "dashboard" ()).w.body =
      "Internal server error\n" ∧
    (leakyHandler.render {} "ticket-form" ()).w.status = 500 ∧
    (leakyHandler.render {} "ticket-form" ()).executed = [] :=
  ⟨(render_missing_page _ {} "dashboard" () (by simp) rfl rfl).1,
   (render_missing_page _ {} "dashboard" () (by simp) rfl rfl).2.2.1,
   (render_missing_page leakyHandler {} "ticket-form" () (by decide) rfl rfl).1,
   (render_missing_page leakyHandler {} "ticket-form" () (by decide) rfl rfl).2.2.2.1⟩

end HandlerTheorems

/-! ## Theorems: template loading -/

section LoadTheorems

variable {T : Type}

theorem takeWhile_append_stop {α : Type} (p : α → Bool) (l r : List α) (a : α)
    (hl : ∀ x ∈ l, p x = true) (ha : p a = false) : (l ++ a :: r).takeWhile p = l := by
  induction l with
  | nil => simp [List.takeWhile, ha]
  | cons x xs ih =>
    have hx : p x = true := hl x (List.mem_cons_self x xs)
    have hxs : ∀ y ∈ xs, p y = true := fun y hy => hl y (List.mem_cons_of_mem x hy)
    simp [List.takeWhile, hx, ih hxs]

theorem tmpl_data : ".tmpl".data = ['.', 't', 'm', 'p', 'l'] := rfl

theorem Base_glob (dir stem : List Char) (hs : '/' ∉ stem) :
    Base ⟨dir ++ '/' :: (stem ++ ".tmpl".data)⟩ = ⟨stem ++ ".tmpl".data⟩ := by
  have hne : (⟨dir ++ '/' :: (stem ++ ".tmpl".data)⟩ : String) ≠ "" := by
    intro h
    have := congrArg String.data h
    simp at this
  have hrev : (dir ++ '/' :: (stem ++ ".tmpl".data)).reverse =
      ('l' :: 'p' :: 'm' :: 't' :: '.' :: stem.reverse) ++ '/' :: dir.reverse := by
    simp [tmpl_data]
  have hdrop : (('l' :: 'p' :: 'm' :: 't' :: '.' :: stem.reverse) ++ '/' :: dir.reverse).dropWhile
      (fun c => decide (c = '/')) =
      ('l' :: 'p' :: 'm' :: 't' :: '.' :: stem.reverse) ++ '/' :: dir.reverse := by
    simp [List.dropWhile]
  have htake : (('l' :: 'p' :: 'm' :: 't' :: '.' :: stem.reverse) ++ '/' :: dir.reverse).takeWhile
      (fun c => decide (c ≠ '/')) = 'l' :: 'p' :: 'm' :: 't' :: '.' :: stem.reverse := by
    apply takeWhile_append_stop
    · intro x hx
      have hx2 : x ≠ '/' := by
        intro hxe
        subst hxe
        simp at hx
        exact hs hx
      simpa using hx2
    · simp
  unfold Base
  rw [if_neg hne]
  simp only [hrev, hdrop, htake]
  simp [tmpl_data]

theorem Ext_glob (stem : List Char) : Ext ⟨stem ++ ".tmpl".data⟩ = ".tmpl" := by
  have hrev : (stem ++ ".tmpl".data).reverse = 'l' :: 'p' :: 'm' :: 't' :: '.' :: stem.reverse := by
    simp [tmpl_data]
  unfold Ext
  simp only [hrev]
  simp [extScan]

theorem templateName_glob (dir stem : List Char) (hs : '/' ∉ stem) :
    templateName ⟨dir ++ '/' :: (stem ++ ".tmpl".data)⟩ = ⟨stem⟩ := by
  unfold templateName
  simp only [Base_glob dir stem hs, Ext_glob stem]
  simp [tmpl_data]

theorem mapSet_fresh (m : List (String × T)) (key : String) (value : T)
    (hk : key ∉ m.map Prod.fst) : mapSet m key value = m ++ [(key, value)] := by
  induction m with
  | nil => rfl
  | cons e rest ih =>
    obtain ⟨k, v⟩ := e
    have hk1 : k ≠ key := by
      intro h
      apply hk
      simp [h]
    have hk2 : key ∉ rest.map Prod.fst := by
      intro h
      apply hk
      simp only [List.map_cons, List.mem_cons]
      exact Or.inr h
    simp [mapSet, hk1, ih hk2]

theorem loadPages_fresh (ParseFiles : List String → Except String T)
    (layoutFiles partialFiles : List String) (unit : String → T) :
    ∀ (pages : List String) (m : List (String × T)),
      (∀ p ∈ pages, ParseFiles (pageFileList layoutFiles p partialFiles) = .ok (unit p)) →
      (m.map Prod.fst ++ pages.map templateName).Nodup →
      loadPages ParseFiles layoutFiles partialFiles pages m =
        .ok (m ++ pages.map (fun p => (templateName p, unit p))) := by
  intro pages
  induction pages with
  | nil => intro m _ _; simp [loadPages]
  | cons p rest ih =>
    intro m hparse hnd
    have hp : ParseFiles (pageFileList layoutFiles p partialFiles) = .ok (unit p) :=
      hparse p (List.mem_cons_self p rest)
    have hrest : ∀ q ∈ rest, ParseFiles (pageFileList layoutFiles q partialFiles) = .ok (unit q) :=
      fun q hq => hparse q (List.mem_cons_of_mem p hq)
    have hfresh : templateName p ∉ m.map Prod.fst := by
      intro hin
      rw [List.nodup_append] at hnd
      exact hnd.2.2 hin (by simp)
    have hnd2 : ((m ++ [(templateName p, unit p)]).map Prod.fst ++ rest.map templateName).Nodup := by
      simpa [List.append_assoc] using hnd
    simp only [loadPages, hp, mapSet_fresh m _ _ hfresh]
    rw [ih _ hrest hnd2]
    simp

theorem lookup_map_of_injOn (f : String → String) (g : String → T) :
    ∀ (l : List String) (p : String), p ∈ l →
      (∀ a ∈ l, ∀ b ∈ l, f a = f b → a = b) →
      (l.map (fun q => (f q, g q))).lookup (f p) = some (g p) := by
  intro l
  induction l with
  | nil => intro p hp; simp at hp
  | cons a rest ih =>
    intro p hp hinj
    by_cases hpa : f p = f a
    · have : p = a := hinj p hp a (List.mem_cons_self a rest) hpa
      subst this
      simp [List.lookup]
    · have hp2 : p ∈ rest := by
        rcases List.mem_cons.mp hp with h | h
        · exact absurd (congrArg f h) hpa
        · exact h
      have hinj2 : ∀ x ∈ rest, ∀ y ∈ rest, f x = f y → x = y :=
        fun x hx y hy => hinj x (List.mem_cons_of_mem a hx) y (List.mem_cons_of_mem a hy)
      have hbeq : (f p == f a) = false := by simpa using hpa
      simp only [List.map_cons, List.lookup, hbeq]
      exact ih p hp2 hinj2

theorem templateName_injOn (dir : String) (pages : List String) (hg : GlobResult dir pages) :
    ∀ a ∈ pages, ∀ b ∈ pages, templateName a = templateName b → a = b := by
  intro a ha b hb hab
  obtain ⟨sa, hsa, rfl⟩ := hg.2 a ha
  obtain ⟨sb, hsb, rfl⟩ := hg.2 b hb
  rw [templateName_glob _ _ hsa, templateName_glob _ _ hsb] at hab
  have hs : sa = sb := congrArg String.data hab
  rw [hs]

/-- C10. When `filepath.Glob` lists the layout files (at least one), the page files and the
partial files of the three template directories and every parse succeeds, `loadTemplates`
returns a map that holds, for each page file, under the page file's base name without its
extension, the result of parsing exactly the layout files, then that page file, then the
partial files; this list contains no other page file; the keys are distinct and the map has
one entry per page file. -/
theorem loadTemplates_units (Glob : String → Except String (List String))
    (ParseFiles : List String → Except String T) (unit : String → T)
    (layoutFiles pageFiles partialFiles : List String)
    (hL : Glob "templates/layouts/*.tmpl" = .ok layoutFiles)
    (hP : Glob "templates/pages/*.tmpl" = .ok pageFiles)
    (hR : Glob "templates/partials/*.tmpl" = .ok partialFiles)
    (hLg : GlobResult "templates/layouts" layoutFiles)
    (hPg : GlobResult "templates/pages" pageFiles)
    (hRg : GlobResult "templates/partials" partialFiles)
    (hne : layoutFiles ≠ [])
    (hparse : ∀ p ∈ pageFiles,
      ParseFiles (layoutFiles ++ [p] ++ partialFiles) = .ok (unit p)) :
    ∃ m : List (String × T),
      loadTemplates Glob ParseFiles = .ok m ∧
      m.length = pageFiles.length ∧
      (m.map Prod.fst).Nodup ∧
      (∀ p ∈ pageFiles, m.lookup (templateName p) = some (unit p)) ∧
      (∀ e ∈ m, ∃ p ∈ pageFiles, e = (templateName p, unit p)) ∧
      (∀ p ∈ pageFiles, ∀ stem : List Char,
        p = ⟨"templates/pages".data ++ '/' :: (stem ++ ".tmpl".data)⟩ → '/' ∉ stem →
        templateName p = ⟨stem⟩) ∧
      (∀ p ∈ pageFiles, pageFileList layoutFiles p partialFiles = layoutFiles ++ [p] ++ partialFiles ∧
        ∀ q ∈ pageFiles, q ∈ pageFileList layoutFiles p partialFiles → q = p) := by
  have hfl : ∀ p, pageFileList layoutFiles p partialFiles = layoutFiles ++ [p] ++ partialFiles := by
    intro p
    simp [pageFileList]
  have hinj := templateName_injOn "templates/pages" pageFiles hPg
  have hnd : (pageFiles.map templateName).Nodup := List.Nodup.map_on hinj hPg.1
  have hload : loadTemplates Glob ParseFiles =
      .ok (pageFiles.map (fun p => (templateName p, unit p))) := by
    have hj1 : Join ["templates", "layouts", "*.tmpl"] = "templates/layouts/*.tmpl" := by decide
    have hj2 : Join ["templates", "pages", "*.tmpl"] = "templates/pages/*.tmpl" := by decide
    have hj3 : Join ["templates", "partials", "*.tmpl"] = "templates/partials/*.tmpl" := by decide
    have hlen : ¬ layoutFiles.length = 0 := by
      intro h
      exact hne (List.length_eq_zero.mp h)
    simp only [loadTemplates, hj1, hj2, hj3, hL, hP, hR, if_neg hlen]
    have := loadPages_fresh ParseFiles layoutFiles partialFiles unit pageFiles []
      (fun p hp => by rw [hfl p]; exact hparse p hp) (by simpa using hnd)
    simpa using this
  refine ⟨_, hload, by simp, ?_, ?_, ?_, ?_, ?_⟩
  · simpa [List.map_map, Function.comp_def] using hnd
  · intro p hp
    exact lookup_map_of_injOn templateName unit pageFiles p hp hinj
  · intro e he
    obtain ⟨p, hp, rfl⟩ := List.mem_map.mp he
    exact ⟨p, hp, rfl⟩
  · intro p _ stem hp hs
    rw [hp]
    exact templateName_glob _ stem hs
  · intro p hp
    refine ⟨hfl p, ?_⟩
    intro q hq hmem
    rw [hfl p] at hmem
    simp only [List.mem_append, List.mem_singleton] at hmem
    rcases hmem with (hmem | hmem) | hmem
    · obtain ⟨s1, _, e1⟩ := hPg.2 q hq
      obtain ⟨s2, _, e2⟩ := hLg.2 q hmem
      have hdata := congrArg String.data (e1.symm.trans e2)
      simp at hdata
    · exact hmem
    · obtain ⟨s1, _, e1⟩ := hPg.2 q hq
      obtain ⟨s2, _, e2⟩ := hRg.2 q hmem
      have hdata := congrArg String.data (e1.symm.trans e2)
      simp at hdata

/-- C10, at a file system with one layout, the pages `dashboard` and `ticket-form`, and one
partial: two entries, and the unit of `dashboard` is parsed from the layout, the dashboard
page and the partial. -/
theorem loadTemplates_units_witness :
    ∃ m : List (String × List String),
      loadTemplates demoGlob demoParse = .ok m ∧ m.length = 2 ∧
      m.lookup "dashboard" = some ["templates/layouts/base.tmpl",
        "templates/pages/dashboard.tmpl", "templates/partials/status-badge.tmpl"] ∧
      m.lookup "ticket-form" = some ["templates/layouts/base.tmpl",
        "templates/pages/ticket-form.tmpl", "templates/partials/status-badge.tmpl"] := by
  have hLg : GlobResult "templates/layouts" ["templates/layouts/base.tmpl"] := by
    refine ⟨by decide, ?_⟩
    intro f hf
    simp only [List.mem_singleton] at hf
    subst hf
    exact ⟨"base".data, by decide, by decide⟩
  have hPg : GlobResult "templates/pages"
      ["templates/pages/dashboard.tmpl", "templates/pages/ticket-form.tmpl"] := by
    refine ⟨by decide, ?_⟩
    intro f hf
    simp only [List.mem_cons, List.mem_singleton, List.not_mem_nil, or_false] at hf
    rcases hf with rfl | rfl
    · exact ⟨"dashboard".data, by decide, by decide⟩
    · exact ⟨"ticket-form".data, by decide, by decide⟩
  have hRg : GlobResult "templates/partials" ["templates/partials/status-badge.tmpl"] := by
    refine ⟨by decide, ?_⟩
    intro f hf
    simp only [List.mem_singleton] at hf
    subst hf
    exact ⟨"status-badge".data, by decide, by decide⟩
  obtain ⟨m, h1, h2, _, h4, _⟩ := loadTemplates_units demoGlob demoParse
    (fun p => ["templates/layouts/base.tmpl", p, "templates/partials/status-badge.tmpl"])
    ["templates/layouts/base.tmpl"]
    ["templates/pages/dashboard.tmpl", "templates/pages/ticket-form.tmpl"]
    ["templates/partials/status-badge.tmpl"] rfl rfl rfl hLg hPg hRg (by decide)
    (fun _ _ => rfl)
  have hd := h4 "templates/pages/dashboard.tmpl" (by decide)
  have hf := h4 "templates/pages/ticket-form.tmpl" (by decide)
  have e1 : templateName "templates/pages/dashboard.tmpl" = "dashboard" := by decide
  have e2 : templateName "templates/pages/ticket-form.tmpl" = "ticket-form" := by decide
  rw [e1] at hd
  rw [e2] at hf
  exact ⟨m, h1, h2, hd, hf⟩

end LoadTheorems

end Flexsupport
